import Mathlib

/-!
Shallow embedding of the `draw_state` crate (gfx-rs graphics state blocks).

Source layout:
- `src/target.rs`: render-target vocabulary (numeric aliases, `Rect`, `ColorValue`).
- `src/state.rs`: fixed-function state primitives (rasterizer, comparison,
  stencil, depth, blend equations/factors/channels, color mask, reference values).
- `src/preset.rs`: named `Blend` and `Depth` preset constants.
- `src/lib.rs`: the `DrawState` aggregate with its builder methods and
  `get_target_mask`.

Machine-integer conventions: `u8`/`u16` values (stencil refs and masks, scissor
coordinates) are carried as `Nat`; the code performs no arithmetic on them, only
construction and comparison, so no wrap-around modelling is needed.  `f32`
components of the constant blend color are likewise only ever constructed (the
sole literal is `0.0`) and compared, never computed with, so they are carried as
`Int` exact values.

`lib.rs` in this snapshot predates `state.rs`/`target.rs`: it references a few
declarations (`target::Mask` with its flag constants, `state::Primitive`,
`state::MASK_ALL`, and a `Blend` record carrying a color write mask) that are
absent from the given `state.rs`/`target.rs`.  Those are modelled from the spec,
each marked `Modelled from the spec:` in its doc comment; everything else is a
direct translation of the source.
-/

namespace DrawStateSpec

namespace target

/-- `target::Stencil`: a single value from a stencil buffer, `u8` in the source. -/
abbrev Stencil := Nat

/-- `Stencil::max_value()` for the `u8` stencil type: all eight bits set. -/
def Stencil.max_value : Stencil := 255

/-- `target::Rect`: a screen space rectangle with `u16` fields. -/
structure Rect where
  x : Nat
  y : Nat
  w : Nat
  h : Nat
  deriving DecidableEq, Repr

/-- `target::ColorValue = [f32; 4]`: a color with four components. -/
abbrev ColorValue := Fin 4 → Int

/-- Modelled from the spec: `target::Mask`, the render-target mask referenced by
`lib.rs` but absent from the given `target.rs` — "bit flags over {STENCIL,
DEPTH, COLOR0..COLOR3}" with "bitwise OR/AND/empty operations" (spec §3, §4.1).
The spec fixes no bit positions, so distinct single bits are chosen. -/
structure Mask where
  bits : Nat
  deriving DecidableEq, Repr

/-- The `COLOR0` flag of the target mask. -/
def COLOR0 : Mask := ⟨0x01⟩

/-- The `COLOR1` flag of the target mask. -/
def COLOR1 : Mask := ⟨0x02⟩

/-- The `COLOR2` flag of the target mask. -/
def COLOR2 : Mask := ⟨0x04⟩

/-- The `COLOR3` flag of the target mask. -/
def COLOR3 : Mask := ⟨0x08⟩

/-- The `DEPTH` flag of the target mask. -/
def DEPTH : Mask := ⟨0x10⟩

/-- The `STENCIL` flag of the target mask. -/
def STENCIL : Mask := ⟨0x20⟩

/-- `Mask::empty()`: the mask with no flags set. -/
def Mask.empty : Mask := ⟨0⟩

/-- Bitwise union of two masks (the `|` operator on bitflags). -/
def Mask.or (a b : Mask) : Mask := ⟨a.bits ||| b.bits⟩

/-- Whether every bit of flag `f` is set in mask `m` (bitflags `contains`). -/
def Mask.has (m f : Mask) : Bool := f.bits &&& m.bits == f.bits

end target

namespace state

/-- `state::FrontFace`: the front face winding order. -/
inductive FrontFace where
  | Clockwise
  | CounterClockwise
  deriving DecidableEq, Repr

/-- `state::LineWidth = i32` (an `i32` stand-in for `f32`, per the source). -/
abbrev LineWidth := Int

/-- `state::OffsetSlope = i32`. -/
abbrev OffsetSlope := Int

/-- `state::OffsetUnits = i32`. -/
abbrev OffsetUnits := Int

/-- `state::Offset(OffsetSlope, OffsetUnits)`: screen-space vertex offset. -/
structure Offset where
  slope : OffsetSlope
  units : OffsetUnits
  deriving DecidableEq, Repr

/-- `state::CullFace`: which face, if any, to cull. -/
inductive CullFace where
  | Nothing
  | Front
  | Back
  deriving DecidableEq, Repr

/-- `state::RasterMethod` as declared in the given `state.rs`. -/
inductive RasterMethod where
  | Point
  | Line (width : LineWidth)
  | Fill
  deriving DecidableEq, Repr

/-- `state::MultiSample`: multi-sampling rasterization mode (unit struct). -/
structure MultiSample where
  deriving DecidableEq, Repr

/-- `state::Rasterizer`: primitive rasterization state. -/
structure Rasterizer where
  front_face : FrontFace
  cull_face : CullFace
  method : RasterMethod
  offset : Option Offset
  samples : Option MultiSample
  deriving DecidableEq, Repr

/-- `Rasterizer::new_fill()`: a new filling rasterizer. -/
def Rasterizer.new_fill : Rasterizer :=
  { front_face := FrontFace.CounterClockwise
    cull_face := CullFace.Nothing
    method := RasterMethod.Fill
    offset := none
    samples := none }

/-- `Rasterizer::with_cull_back()`: add back face culling. -/
def Rasterizer.with_cull_back (r : Rasterizer) : Rasterizer :=
  { r with cull_face := CullFace.Back }

/-- Modelled from the spec: the raster-method variant used by `lib.rs`'s
`state::Primitive`, in which `Fill` carries the cull face
(`RasterMethod::Fill(CullFace::Back)` in `lib.rs`); this declaration is absent
from the given `state.rs`, whose `Fill` takes no argument and whose cull face
lives in `Rasterizer` instead (spec §9: variants differ on this point). -/
inductive RasterMethodCull where
  | Point
  | Line (width : LineWidth)
  | Fill (cull : CullFace)
  deriving DecidableEq, Repr

/-- Modelled from the spec: `state::Primitive`, the rasterizer block referenced
by `lib.rs`'s `DrawState` but absent from the given `state.rs`.  Per the spec's
rasterizer entity (§3) and `lib.rs`'s construction, it carries the front-face
winding, the raster method (with the cull face folded into `Fill`), and the
optional polygon offset; multi-sampling sits on `DrawState` instead. -/
structure Primitive where
  front_face : FrontFace
  method : RasterMethodCull
  offset : Option Offset
  deriving DecidableEq, Repr

/-- `state::Comparison`: a pixel-wise comparison function. -/
inductive Comparison where
  | Never
  | Less
  | LessEqual
  | Equal
  | GreaterEqual
  | Greater
  | NotEqual
  | Always
  deriving DecidableEq, Repr

/-- `state::StencilOp`: stencil buffer update operation. -/
inductive StencilOp where
  | Keep
  | Zero
  | Replace
  | IncrementClamp
  | IncrementWrap
  | DecrementClamp
  | DecrementWrap
  | Invert
  deriving DecidableEq, Repr

/-- `state::StencilSide`: complete stencil state for one side of a face.
The Rust field `fun` is a Lean keyword, hence `fun'`. -/
structure StencilSide where
  fun' : Comparison
  mask_read : target.Stencil
  mask_write : target.Stencil
  op_fail : StencilOp
  op_depth_fail : StencilOp
  op_pass : StencilOp
  deriving DecidableEq, Repr

/-- `impl Default for StencilSide`. -/
def StencilSide.default : StencilSide :=
  { fun' := Comparison.Always
    mask_read := target.Stencil.max_value
    mask_write := target.Stencil.max_value
    op_fail := StencilOp.Keep
    op_depth_fail := StencilOp.Keep
    op_pass := StencilOp.Keep }

/-- `state::Stencil`: front and back side stencil state. -/
structure Stencil where
  front : StencilSide
  back : StencilSide
  deriving DecidableEq, Repr

/-- `Stencil::new(fun, mask, ops)`: symmetric stencil state from one function,
one mask and the `(op_fail, op_depth_fail, op_pass)` triple. -/
def Stencil.new (f : Comparison) (mask : target.Stencil)
    (ops : StencilOp × StencilOp × StencilOp) : Stencil :=
  let side : StencilSide :=
    { fun' := f
      mask_read := mask
      mask_write := mask
      op_fail := ops.1
      op_depth_fail := ops.2.1
      op_pass := ops.2.2 }
  { front := side, back := side }

/-- `state::Depth`: depth test state. -/
structure Depth where
  fun' : Comparison
  write : Bool
  deriving DecidableEq, Repr

/-- `impl Default for Depth`. -/
def Depth.default : Depth :=
  { fun' := Comparison.Always, write := false }

/-- `state::Equation`: blend channel combination rule. -/
inductive Equation where
  | Add
  | Sub
  | RevSub
  | Min
  | Max
  deriving DecidableEq, Repr

/-- `state::BlendValue`: symbolic operand for a blend factor. -/
inductive BlendValue where
  | SourceColor
  | SourceAlpha
  | DestColor
  | DestAlpha
  | ConstColor
  | ConstAlpha
  deriving DecidableEq, Repr

/-- `state::Factor`: a blend weight. -/
inductive Factor where
  | Zero
  | One
  | SourceAlphaSaturated
  | ZeroPlus (v : BlendValue)
  | OneMinus (v : BlendValue)
  deriving DecidableEq, Repr

/-- `state::BlendChannel`: one independent blend pipeline. -/
structure BlendChannel where
  equation : Equation
  source : Factor
  destination : Factor
  deriving DecidableEq, Repr

/-- `impl Default for BlendChannel`. -/
def BlendChannel.default : BlendChannel :=
  { equation := Equation.Add
    source := Factor.One
    destination := Factor.Zero }

/-- `state::Blend` as declared in the given `state.rs`: color and alpha
channels, no write mask. -/
structure Blend where
  color : BlendChannel
  alpha : BlendChannel
  deriving DecidableEq, Repr

/-- `derive(Default)` on `Blend`: both channels take their defaults. -/
def Blend.default : Blend :=
  { color := BlendChannel.default, alpha := BlendChannel.default }

/-- `Blend::new(eq, src, dst)`: blend state with identical color and alpha
channels. -/
def Blend.new (eq : Equation) (src dst : Factor) : Blend :=
  let chan : BlendChannel :=
    { equation := eq, source := src, destination := dst }
  { color := chan, alpha := chan }

/-- `state::ColorMask`: bit flags over {RED, GREEN, BLUE, ALPHA} (`u8`). -/
structure ColorMask where
  bits : Nat
  deriving DecidableEq, Repr

/-- The `RED` color mask flag (`0x1`). -/
def ColorMask.RED : ColorMask := ⟨0x1⟩

/-- The `GREEN` color mask flag (`0x2`). -/
def ColorMask.GREEN : ColorMask := ⟨0x2⟩

/-- The `BLUE` color mask flag (`0x4`). -/
def ColorMask.BLUE : ColorMask := ⟨0x4⟩

/-- The `ALPHA` color mask flag (`0x8`). -/
def ColorMask.ALPHA : ColorMask := ⟨0x8⟩

/-- `ColorMask::all()`: all four channel flags set. -/
def ColorMask.all : ColorMask := ⟨0xF⟩

/-- Modelled from the spec: `state::MASK_ALL`, the all-channels color write
mask referenced by `lib.rs` but absent from the given `state.rs`; per spec §3
"ColorMask: bit flags over {RED, GREEN, BLUE, ALPHA}; ALL/NONE are derived"
it is the mask with every channel flag set. -/
def MASK_ALL : ColorMask := ColorMask.all

/-- Modelled from the spec: the `state::Blend` variant referenced by `lib.rs`'s
`DrawState::blend`, which constructs `Blend { color, alpha, mask }`; absent
from the given `state.rs`.  Spec §3: "Blend: { color: BlendChannel, alpha:
BlendChannel } — may additionally carry a write mask in variants that fold
color-mask into the blend record". -/
structure BlendMasked where
  color : BlendChannel
  alpha : BlendChannel
  mask : ColorMask
  deriving DecidableEq, Repr

/-- `state::RefValues`: rasterizer reference values. -/
structure RefValues where
  stencil : target.Stencil × target.Stencil
  blend : target.ColorValue
  deriving DecidableEq, Repr

/-- `impl Default for RefValues`: zero stencil refs, zero blend color. -/
def RefValues.default : RefValues :=
  { stencil := (0, 0), blend := fun _ => 0 }

end state

/-- `MAX_COLOR_TARGETS`: compile-time maximum MRT count. -/
abbrev MAX_COLOR_TARGETS : Nat := 4

/-- `DrawState` (`lib.rs`): an assembly of states that affect regular draw
calls.  The blend array `[Option<state::Blend>; MAX_COLOR_TARGETS]` is
embedded as a function out of `Fin MAX_COLOR_TARGETS`. -/
structure DrawState where
  primitive : state.Primitive
  multi_sample : Option state.MultiSample
  scissor : Option target.Rect
  stencil : Option state.Stencil
  depth : Option state.Depth
  blend : Fin MAX_COLOR_TARGETS → Option state.BlendMasked
  ref_values : state.RefValues
  deriving DecidableEq

/-- `BlendPreset` (`lib.rs`): blend function presets. -/
inductive BlendPreset where
  | Add
  | Multiply
  | Alpha
  | Invert
  deriving DecidableEq, Repr

/-- `DrawState::new()`: counter-clockwise winding, back-face culling, no
scissor/stencil/depth/blend/color masking. -/
def DrawState.new : DrawState :=
  { primitive :=
      { front_face := state.FrontFace.CounterClockwise
        method := state.RasterMethodCull.Fill state.CullFace.Back
        offset := none }
    multi_sample := none
    scissor := none
    stencil := none
    depth := none
    blend := fun _ => none
    ref_values := state.RefValues.default }

/-- `DrawState::get_target_mask()`: the target mask of all planes required by
this state. -/
def DrawState.get_target_mask (s : DrawState) : target.Mask :=
  target.Mask.or (if s.stencil.isSome then target.STENCIL else target.Mask.empty)
    (target.Mask.or (if s.depth.isSome then target.DEPTH else target.Mask.empty)
      (target.Mask.or (if (s.blend 0).isSome then target.COLOR0 else target.Mask.empty)
        (target.Mask.or (if (s.blend 1).isSome then target.COLOR1 else target.Mask.empty)
          (target.Mask.or (if (s.blend 2).isSome then target.COLOR2 else target.Mask.empty)
            (if (s.blend 3).isSome then target.COLOR3 else target.Mask.empty)))))

/-- `DrawState::multi_sample()` builder: enable multi-sampled rasterization.
Primed because the field projection already takes the Rust method's name. -/
def DrawState.multi_sample' (s : DrawState) : DrawState :=
  { s with multi_sample := some {} }

/-- `DrawState::stencil(fun, value)` builder: symmetric stencil test with full
masks and `Keep` operations, and `value` written into both reference slots. -/
def DrawState.stencil' (s : DrawState) (f : state.Comparison)
    (value : target.Stencil) : DrawState :=
  let side : state.StencilSide :=
    { fun' := f
      mask_read := target.Stencil.max_value
      mask_write := target.Stencil.max_value
      op_fail := state.StencilOp.Keep
      op_depth_fail := state.StencilOp.Keep
      op_pass := state.StencilOp.Keep }
  { s with
    stencil := some { front := side, back := side }
    ref_values := { s.ref_values with stencil := (value, value) } }

/-- `DrawState::depth(fun, write)` builder: set the depth test with the mask. -/
def DrawState.depth' (s : DrawState) (f : state.Comparison) (write : Bool) :
    DrawState :=
  { s with depth := some { fun' := f, write := write } }

/-- `DrawState::scissor(x, y, w, h)` builder: set the scissor rectangle. -/
def DrawState.scissor' (s : DrawState) (x y w h : Nat) : DrawState :=
  { s with scissor := some { x := x, y := y, w := w, h := h } }

/-- The `state::Blend` literal that `DrawState::blend` installs for each
preset (`lib.rs` lines 146-199). -/
def BlendPreset.toBlend : BlendPreset → state.BlendMasked
  | BlendPreset.Add =>
    { color :=
        { equation := state.Equation.Add
          source := state.Factor.One
          destination := state.Factor.One }
      alpha :=
        { equation := state.Equation.Add
          source := state.Factor.One
          destination := state.Factor.One }
      mask := state.MASK_ALL }
  | BlendPreset.Multiply =>
    { color :=
        { equation := state.Equation.Add
          source := state.Factor.ZeroPlus state.BlendValue.DestColor
          destination := state.Factor.Zero }
      alpha :=
        { equation := state.Equation.Add
          source := state.Factor.ZeroPlus state.BlendValue.DestAlpha
          destination := state.Factor.Zero }
      mask := state.MASK_ALL }
  | BlendPreset.Alpha =>
    { color :=
        { equation := state.Equation.Add
          source := state.Factor.ZeroPlus state.BlendValue.SourceAlpha
          destination := state.Factor.OneMinus state.BlendValue.SourceAlpha }
      alpha :=
        { equation := state.Equation.Add
          source := state.Factor.One
          destination := state.Factor.One }
      mask := state.MASK_ALL }
  | BlendPreset.Invert =>
    { color :=
        { equation := state.Equation.Sub
          source := state.Factor.ZeroPlus state.BlendValue.ConstColor
          destination := state.Factor.ZeroPlus state.BlendValue.SourceColor }
      alpha :=
        { equation := state.Equation.Add
          source := state.Factor.Zero
          destination := state.Factor.One }
      mask := state.MASK_ALL }

/-- `DrawState::blend(preset)` builder: `self.blend[0] = Some(preset value)`. -/
def DrawState.blend' (s : DrawState) (preset : BlendPreset) : DrawState :=
  { s with blend := Function.update s.blend 0 (some preset.toBlend) }

namespace preset

namespace blend

/-- `preset::blend::REPLACE`: choose the source value. -/
def REPLACE : state.Blend :=
  { color :=
      { equation := state.Equation.Add
        source := state.Factor.One
        destination := state.Factor.Zero }
    alpha :=
      { equation := state.Equation.Add
        source := state.Factor.One
        destination := state.Factor.Zero } }

/-- `preset::blend::ADD`: add the two fragments. -/
def ADD : state.Blend :=
  { color :=
      { equation := state.Equation.Add
        source := state.Factor.One
        destination := state.Factor.One }
    alpha :=
      { equation := state.Equation.Add
        source := state.Factor.One
        destination := state.Factor.One } }

/-- `preset::blend::MULTIPLY`: multiply the two fragments. -/
def MULTIPLY : state.Blend :=
  { color :=
      { equation := state.Equation.Add
        source := state.Factor.ZeroPlus state.BlendValue.DestColor
        destination := state.Factor.Zero }
    alpha :=
      { equation := state.Equation.Add
        source := state.Factor.ZeroPlus state.BlendValue.DestAlpha
        destination := state.Factor.Zero } }

/-- `preset::blend::ALPHA`: standard transparency mixing. -/
def ALPHA : state.Blend :=
  { color :=
      { equation := state.Equation.Add
        source := state.Factor.ZeroPlus state.BlendValue.SourceAlpha
        destination := state.Factor.OneMinus state.BlendValue.SourceAlpha }
    alpha :=
      { equation := state.Equation.Add
        source := state.Factor.One
        destination := state.Factor.One } }

/-- `preset::blend::INVERT`: constant-color weighted invert. -/
def INVERT : state.Blend :=
  { color :=
      { equation := state.Equation.Sub
        source := state.Factor.ZeroPlus state.BlendValue.ConstColor
        destination := state.Factor.ZeroPlus state.BlendValue.SourceColor }
    alpha :=
      { equation := state.Equation.Add
        source := state.Factor.Zero
        destination := state.Factor.One } }

end blend

namespace depth

/-- `preset::depth::PASS_TEST`: always pass, no depth write. -/
def PASS_TEST : state.Depth :=
  { fun' := state.Comparison.Always, write := false }

/-- `preset::depth::PASS_WRITE`: always pass, write depth. -/
def PASS_WRITE : state.Depth :=
  { fun' := state.Comparison.Always, write := true }

/-- `preset::depth::LESS_EQUAL_TEST`: `<=` comparison, read-only depth. -/
def LESS_EQUAL_TEST : state.Depth :=
  { fun' := state.Comparison.LessEqual, write := false }

/-- `preset::depth::LESS_EQUAL_WRITE`: `<=` comparison, write depth. -/
def LESS_EQUAL_WRITE : state.Depth :=
  { fun' := state.Comparison.LessEqual, write := true }

end depth

end preset

/-- C1: for every `DrawState`, `get_target_mask` contains `STENCIL` exactly when
the stencil field is set, `DEPTH` exactly when the depth field is set, and
`COLORi` exactly when `blend i` is set; it contains no bit outside these six
flags; and the default state maps to the empty mask. -/
theorem c1_get_target_mask_exact :
    (∀ s : DrawState,
      (s.get_target_mask.has target.STENCIL = s.stencil.isSome) ∧
      (s.get_target_mask.has target.DEPTH = s.depth.isSome) ∧
      (s.get_target_mask.has target.COLOR0 = (s.blend 0).isSome) ∧
      (s.get_target_mask.has target.COLOR1 = (s.blend 1).isSome) ∧
      (s.get_target_mask.has target.COLOR2 = (s.blend 2).isSome) ∧
      (s.get_target_mask.has target.COLOR3 = (s.blend 3).isSome) ∧
      s.get_target_mask.bits &&&
        (target.STENCIL.or (target.DEPTH.or (target.COLOR0.or (target.COLOR1.or
          (target.COLOR2.or target.COLOR3))))).bits = s.get_target_mask.bits) ∧
    DrawState.new.get_target_mask = target.Mask.empty := by
  constructor
  · intro s
    rcases hs : s.stencil with _ | st <;>
    rcases hd : s.depth with _ | d <;>
    rcases hb0 : s.blend 0 with _ | b0 <;>
    rcases hb1 : s.blend 1 with _ | b1 <;>
    rcases hb2 : s.blend 2 with _ | b2 <;>
    rcases hb3 : s.blend 3 with _ | b3 <;>
    simp [DrawState.get_target_mask, target.Mask.has, target.Mask.or,
      target.Mask.empty, target.STENCIL, target.DEPTH, target.COLOR0,
      target.COLOR1, target.COLOR2, target.COLOR3, hs, hd, hb0, hb1, hb2, hb3] <;>
    decide
  · rfl

/-- C2: each blend preset installed by `DrawState::blend` carries exactly the
documented (equation, source, destination) pairs on its color and alpha
channels, the standalone preset constants carry the same pairs, and applying
the same preset twice yields a field-equal result. -/
theorem c2_blend_presets_glossary :
    (∀ s : DrawState,
      (s.blend' BlendPreset.Add).blend 0 = some
        { color := { equation := state.Equation.Add, source := state.Factor.One,
                     destination := state.Factor.One }
          alpha := { equation := state.Equation.Add, source := state.Factor.One,
                     destination := state.Factor.One }
          mask := state.MASK_ALL } ∧
      (s.blend' BlendPreset.Multiply).blend 0 = some
        { color := { equation := state.Equation.Add,
                     source := state.Factor.ZeroPlus state.BlendValue.DestColor,
                     destination := state.Factor.Zero }
          alpha := { equation := state.Equation.Add,
                     source := state.Factor.ZeroPlus state.BlendValue.DestAlpha,
                     destination := state.Factor.Zero }
          mask := state.MASK_ALL } ∧
      (s.blend' BlendPreset.Alpha).blend 0 = some
        { color := { equation := state.Equation.Add,
                     source := state.Factor.ZeroPlus state.BlendValue.SourceAlpha,
                     destination := state.Factor.OneMinus state.BlendValue.SourceAlpha }
          alpha := { equation := state.Equation.Add, source := state.Factor.One,
                     destination := state.Factor.One }
          mask := state.MASK_ALL } ∧
      (s.blend' BlendPreset.Invert).blend 0 = some
        { color := { equation := state.Equation.Sub,
                     source := state.Factor.ZeroPlus state.BlendValue.ConstColor,
                     destination := state.Factor.ZeroPlus state.BlendValue.SourceColor }
          alpha := { equation := state.Equation.Add, source := state.Factor.Zero,
                     destination := state.Factor.One }
          mask := state.MASK_ALL } ∧
      (∀ p : BlendPreset, (s.blend' p).blend' p = s.blend' p)) ∧
    preset.blend.ADD =
      { color := { equation := state.Equation.Add, source := state.Factor.One,
                   destination := state.Factor.One }
        alpha := { equation := state.Equation.Add, source := state.Factor.One,
                   destination := state.Factor.One } } ∧
    preset.blend.MULTIPLY =
      { color := { equation := state.Equation.Add,
                   source := state.Factor.ZeroPlus state.BlendValue.DestColor,
                   destination := state.Factor.Zero }
        alpha := { equation := state.Equation.Add,
                   source := state.Factor.ZeroPlus state.BlendValue.DestAlpha,
                   destination := state.Factor.Zero } } ∧
    preset.blend.ALPHA =
      { color := { equation := state.Equation.Add,
                   source := state.Factor.ZeroPlus state.BlendValue.SourceAlpha,
                   destination := state.Factor.OneMinus state.BlendValue.SourceAlpha }
        alpha := { equation := state.Equation.Add, source := state.Factor.One,
                   destination := state.Factor.One } } ∧
    preset.blend.INVERT =
      { color := { equation := state.Equation.Sub,
                   source := state.Factor.ZeroPlus state.BlendValue.ConstColor,
                   destination := state.Factor.ZeroPlus state.BlendValue.SourceColor }
        alpha := { equation := state.Equation.Add, source := state.Factor.Zero,
                   destination := state.Factor.One } } := by
  refine ⟨fun s => ⟨rfl, rfl, rfl, rfl, fun p => ?_⟩, rfl, rfl, rfl, rfl⟩
  show ({ s with blend := _ } : DrawState) = { s with blend := _ }
  simp [DrawState.blend', Function.update_idem]

/-- C3: the `stencil(fun, value)` builder produces a stencil state whose front
and back sides are identical, with full read/write masks, `Keep` for all three
operations and comparison `fun`, and sets both stencil reference values to
`value`. -/
theorem c3_stencil_builder_symmetric :
    ∀ (s : DrawState) (f : state.Comparison) (v : target.Stencil),
      (s.stencil' f v).stencil = some
        { front := { fun' := f
                     mask_read := target.Stencil.max_value
                     mask_write := target.Stencil.max_value
                     op_fail := state.StencilOp.Keep
                     op_depth_fail := state.StencilOp.Keep
                     op_pass := state.StencilOp.Keep }
          back := { fun' := f
                    mask_read := target.Stencil.max_value
                    mask_write := target.Stencil.max_value
                    op_fail := state.StencilOp.Keep
                    op_depth_fail := state.StencilOp.Keep
                    op_pass := state.StencilOp.Keep } } ∧
      (s.stencil' f v).ref_values.stencil = (v, v) :=
  fun _ _ _ => ⟨rfl, rfl⟩

/-- C4: `DrawState::new()` has no stencil, depth or scissor state, no blend on
any of the four slots, stencil references `(0, 0)` and blend constant color
`[0, 0, 0, 0]`. -/
theorem c4_new_inert :
    DrawState.new.stencil = none ∧
    DrawState.new.depth = none ∧
    DrawState.new.scissor = none ∧
    (∀ i : Fin MAX_COLOR_TARGETS, DrawState.new.blend i = none) ∧
    DrawState.new.ref_values.stencil = (0, 0) ∧
    DrawState.new.ref_values.blend = (fun _ => 0) :=
  ⟨rfl, rfl, rfl, fun _ => rfl, rfl, rfl⟩

/-- C5: the rasterizer part of `DrawState::new()` uses fill rasterization with
back-face culling, counter-clockwise front-face winding, no polygon offset and
no multi-sampling. -/
theorem c5_new_rasterizer :
    DrawState.new.primitive.front_face = state.FrontFace.CounterClockwise ∧
    DrawState.new.primitive.method =
      state.RasterMethodCull.Fill state.CullFace.Back ∧
    DrawState.new.primitive.offset = none ∧
    DrawState.new.multi_sample = none :=
  ⟨rfl, rfl, rfl, rfl⟩

/-- C6: `Stencil::new(fun, mask, ops)` yields identical front and back sides,
each with comparison `fun`, both masks equal to `mask`, and the operation
triple assigned in order to `op_fail`, `op_depth_fail`, `op_pass`. -/
theorem c6_stencil_new_symmetric :
    ∀ (f : state.Comparison) (m : target.Stencil)
      (ops : state.StencilOp × state.StencilOp × state.StencilOp),
      (state.Stencil.new f m ops).front = (state.Stencil.new f m ops).back ∧
      (state.Stencil.new f m ops).front =
        { fun' := f, mask_read := m, mask_write := m, op_fail := ops.1,
          op_depth_fail := ops.2.1, op_pass := ops.2.2 } :=
  fun _ _ _ => ⟨rfl, rfl⟩

/-- C7: `Blend::new(eq, src, dst)` yields equal color and alpha channels, both
being the channel with equation `eq`, source `src` and destination `dst`. -/
theorem c7_blend_new_symmetric :
    ∀ (eq : state.Equation) (src dst : state.Factor),
      (state.Blend.new eq src dst).color = (state.Blend.new eq src dst).alpha ∧
      (state.Blend.new eq src dst).color =
        { equation := eq, source := src, destination := dst } :=
  fun _ _ _ => ⟨rfl, rfl⟩

/-- C8: the `depth`, `scissor` and `stencil` builders target disjoint fields,
so all six application orders produce the same final `DrawState`. -/
theorem c8_builders_commute :
    ∀ (s : DrawState) (f : state.Comparison) (w : Bool) (x y w2 h : Nat)
      (f2 : state.Comparison) (v : target.Stencil),
      (((s.depth' f w).scissor' x y w2 h).stencil' f2 v =
        ((s.depth' f w).stencil' f2 v).scissor' x y w2 h) ∧
      (((s.depth' f w).scissor' x y w2 h).stencil' f2 v =
        ((s.scissor' x y w2 h).depth' f w).stencil' f2 v) ∧
      (((s.depth' f w).scissor' x y w2 h).stencil' f2 v =
        ((s.scissor' x y w2 h).stencil' f2 v).depth' f w) ∧
      (((s.depth' f w).scissor' x y w2 h).stencil' f2 v =
        ((s.stencil' f2 v).depth' f w).scissor' x y w2 h) ∧
      (((s.depth' f w).scissor' x y w2 h).stencil' f2 v =
        ((s.stencil' f2 v).scissor' x y w2 h).depth' f w) :=
  fun _ _ _ _ _ _ _ _ _ => ⟨rfl, rfl, rfl, rfl, rfl⟩

/-- C9: every builder modifies only its own fields: `multi_sample`, `depth`,
`scissor` and `blend` each leave all other fields of the receiver unchanged
(`blend` touches only slot 0), and `stencil` leaves everything but the stencil
state and the stencil reference values unchanged, in particular the blend
constant color. -/
theorem c9_builders_frame :
    ∀ (s : DrawState) (f : state.Comparison) (w : Bool) (x y w2 h : Nat)
      (p : BlendPreset) (f2 : state.Comparison) (v : target.Stencil),
      (s.multi_sample'.primitive = s.primitive ∧
       s.multi_sample'.scissor = s.scissor ∧
       s.multi_sample'.stencil = s.stencil ∧
       s.multi_sample'.depth = s.depth ∧
       s.multi_sample'.blend = s.blend ∧
       s.multi_sample'.ref_values = s.ref_values) ∧
      ((s.depth' f w).primitive = s.primitive ∧
       (s.depth' f w).multi_sample = s.multi_sample ∧
       (s.depth' f w).scissor = s.scissor ∧
       (s.depth' f w).stencil = s.stencil ∧
       (s.depth' f w).blend = s.blend ∧
       (s.depth' f w).ref_values = s.ref_values) ∧
      ((s.scissor' x y w2 h).primitive = s.primitive ∧
       (s.scissor' x y w2 h).multi_sample = s.multi_sample ∧
       (s.scissor' x y w2 h).stencil = s.stencil ∧
       (s.scissor' x y w2 h).depth = s.depth ∧
       (s.scissor' x y w2 h).blend = s.blend ∧
       (s.scissor' x y w2 h).ref_values = s.ref_values) ∧
      ((s.blend' p).primitive = s.primitive ∧
       (s.blend' p).multi_sample = s.multi_sample ∧
       (s.blend' p).scissor = s.scissor ∧
       (s.blend' p).stencil = s.stencil ∧
       (s.blend' p).depth = s.depth ∧
       (s.blend' p).blend 1 = s.blend 1 ∧
       (s.blend' p).blend 2 = s.blend 2 ∧
       (s.blend' p).blend 3 = s.blend 3 ∧
       (s.blend' p).ref_values = s.ref_values) ∧
      ((s.stencil' f2 v).primitive = s.primitive ∧
       (s.stencil' f2 v).multi_sample = s.multi_sample ∧
       (s.stencil' f2 v).scissor = s.scissor ∧
       (s.stencil' f2 v).depth = s.depth ∧
       (s.stencil' f2 v).blend = s.blend ∧
       (s.stencil' f2 v).ref_values.blend = s.ref_values.blend) :=
  fun _ _ _ _ _ _ _ _ _ _ =>
    ⟨⟨rfl, rfl, rfl, rfl, rfl, rfl⟩,
     ⟨rfl, rfl, rfl, rfl, rfl, rfl⟩,
     ⟨rfl, rfl, rfl, rfl, rfl, rfl⟩,
     ⟨rfl, rfl, rfl, rfl, rfl, rfl, rfl, rfl, rfl⟩,
     ⟨rfl, rfl, rfl, rfl, rfl, rfl⟩⟩

/-- C10: the `REPLACE` blend preset has the default channel (equation `Add`,
source `One`, destination `Zero`) for both color and alpha, and hence equals
the derived `Blend` default. -/
theorem c10_replace_is_default :
    preset.blend.REPLACE.color = state.BlendChannel.default ∧
    preset.blend.REPLACE.alpha = state.BlendChannel.default ∧
    preset.blend.REPLACE = state.Blend.default :=
  ⟨rfl, rfl, rfl⟩

end DrawStateSpec
